import Mathlib

/-!
Verification of the crate geometry derivation engine.

The engine derives skid layout, floorboard packing and panel dimensions for a
wooden shipping crate from product and material inputs.  All numeric values
are modelled as rationals; the reference system computes with IEEE doubles but
every algorithm here is a finite composition of field operations and
comparisons, so rational arithmetic is the exact-arithmetic model of the same
algorithms.

Modules embedded, each translated definition names its source:
* `skid_logic.py` — skid layout solver;
* `floorboard_logic.py` (identical inline copy in
  `current/nx_expressions_generator.py`) — floorboard packing solver;
* `panel_logic.py` and the panel bounding-box section of
  `current/nx_expressions_generator.py` — panel sandwich resolver;
* `front_panel_logic.py`, `back_panel_logic.py`, `end_panel_logic.py`,
  `top_panel_logic.py` — panel component calculators;
* `main_orchestrator.py` and `nx_generator.py` — validation, orchestration
  and expression-file content.
-/

namespace Crate

/-- Ceiling on rationals computed through `Rat.floor`, the executable model of
Python's `math.ceil`. -/
def pyCeil (q : ℚ) : ℤ := -Rat.floor (-q)

instance : IsTotal ℚ (fun a b => b ≤ a) := ⟨fun a b => le_total b a⟩

instance : IsTrans ℚ (fun a b => b ≤ a) := ⟨fun _ _ _ h1 h2 => le_trans h2 h1⟩

/-- Result record of the skid layout solver (mirrors `skid_logic.SkidParameters`). -/
structure SkidParameters where
  actual_height_in : ℚ
  actual_width_in : ℚ
  lumber_callout : String
  max_spacing_rule_in : ℚ
  model_length_in : ℚ
  count : ℤ
  pitch_in : ℚ
  first_pos_x_in : ℚ
  master_origin_offset_in : ℚ
  deriving DecidableEq, Repr

/-- Count, pitch and first-centerline block of
`skid_logic.calculate_skid_parameters` (lines 68–89): one centered skid when
the crate is no wider than the skid (within tolerance), otherwise the ceiling
rule with the count floored at two and the span spread evenly. -/
def skidCpf (crate_overall_width_od_in skid_actual_width_in
    max_skid_spacing_rule_in : ℚ) : ℤ × ℚ × ℚ :=
  if crate_overall_width_od_in ≤ skid_actual_width_in + 0.0001 then
    (1, 0, 0)
  else
    let num_skids_float :=
      (crate_overall_width_od_in - skid_actual_width_in) / max_skid_spacing_rule_in
    let count_raw : ℤ := pyCeil num_skids_float + 1
    let calc_skid_count : ℤ := if count_raw < 2 then 2 else count_raw
    let calc_skid_pitch_in : ℚ :=
      if 1 < calc_skid_count then
        (crate_overall_width_od_in - skid_actual_width_in) /
          ((calc_skid_count : ℚ) - 1)
      else 0
    let total_centerline_span := ((calc_skid_count : ℚ) - 1) * calc_skid_pitch_in
    (calc_skid_count, calc_skid_pitch_in, -total_centerline_span / 2)

/-- Skid layout solver, translated from `skid_logic.calculate_skid_parameters`. -/
def calculate_skid_parameters (product_weight_lbs product_length_in product_width_in
    clearance_each_side_in : ℚ) (allow_3x4_skids_bool : Bool) : SkidParameters :=
  let spec : ℚ × ℚ × String × ℚ :=
    if allow_3x4_skids_bool ∧ product_weight_lbs < 500 then
      (3.5, 2.5, "3x4 (oriented for 3.5 H)", 30.0)
    else if product_weight_lbs < 4500 then
      (3.5, 3.5, "4x4", 30.0)
    else if 4500 ≤ product_weight_lbs ∧ product_weight_lbs ≤ 20000 then
      (3.5, 5.5, "4x6", 24.0)
    else
      (3.5, 5.5, "4x6 (defaulted)", 24.0)
  let skid_actual_height_in := spec.1
  let skid_actual_width_in := spec.2.1
  let lumber_callout := spec.2.2.1
  let max_skid_spacing_rule_in := spec.2.2.2
  let skid_model_length_in := product_length_in + 2 * clearance_each_side_in
  let crate_overall_width_od_in := product_width_in + 2 * clearance_each_side_in
  let cpf : ℤ × ℚ × ℚ :=
    skidCpf crate_overall_width_od_in skid_actual_width_in max_skid_spacing_rule_in
  { actual_height_in := skid_actual_height_in
    actual_width_in := skid_actual_width_in
    lumber_callout := lumber_callout
    max_spacing_rule_in := max_skid_spacing_rule_in
    model_length_in := skid_model_length_in
    count := cpf.1
    pitch_in := cpf.2.1
    first_pos_x_in := cpf.2.2
    master_origin_offset_in := cpf.2.2 - skid_actual_width_in / 2 }

/-- One floorboard of the packing plan (mirrors `floorboard_logic.FloorboardData`). -/
structure FloorboardData where
  width : ℚ
  y_pos : ℚ
  deriving DecidableEq, Repr

/-- Result record of the floorboard packing solver
(mirrors `floorboard_logic.FloorboardParameters`). -/
structure FloorboardParameters where
  actual_length_in : ℚ
  actual_thickness_in : ℚ
  actual_middle_gap : ℚ
  center_custom_board_width : ℚ
  initial_start_y_offset_abs : ℚ
  floorboards_data : List FloorboardData
  deriving DecidableEq, Repr

/-- Inner scan of the packing loop: the first width in the (descending) list
fitting within `rem + 0.001`, defaulting to `0`; mirrors the
`best_fit_std` scan of `floorboard_logic.calculate_floorboard_parameters`. -/
def bestFit (sorted_widths : List ℚ) (rem : ℚ) : ℚ :=
  (sorted_widths.find? (fun w => w ≤ rem + 0.001)).getD 0

/-- Greedy fill loop of `floorboard_logic.calculate_floorboard_parameters`:
repeatedly append the best-fitting width and subtract it from the remaining
span, stopping when `best_fit_std > 0` fails.  The Python `while True` loop is
given an explicit fuel; `calculate_floorboard_parameters` passes a fuel proved
large enough that the loop always reaches its genuine exit condition
(`greedy_exit_of_fuel`). -/
def greedyLoop (sorted_widths : List ℚ) : ℕ → ℚ → List ℚ × ℚ
  | 0, rem => ([], rem)
  | fuel + 1, rem =>
    let b := bestFit sorted_widths rem
    if 0 < b then
      let rest := greedyLoop sorted_widths fuel (rem - b)
      (b :: rest.1, rest.2)
    else ([], rem)

/-- Positive lower bound for every positive element of `l` (and at most `1`),
used only to size the fuel of `greedyLoop`. -/
def minPos (l : List ℚ) : ℚ :=
  l.foldr (fun w m => if 0 < w then min w m else m) 1

/-- Fuel for `greedyLoop` that provably reaches the loop's exit condition. -/
def fbFuel (usable : ℚ) (widths : List ℚ) : ℕ :=
  (usable.num.toNat + 1) * (minPos widths).den

/-- Board layout pass of `floorboard_logic.calculate_floorboard_parameters`:
walk the piece list accumulating leading-edge positions, inserting the middle
gap after the board at `gap_insertion_index` when a gap exists and no custom
board was used. -/
def layoutBoards (gap_insertion_index : ℤ) (actual_middle_gap custom_w : ℚ) :
    List ℚ → ℕ → ℚ → List FloorboardData
  | [], _, _ => []
  | w :: ws, i, y =>
    ⟨w, y⟩ ::
      layoutBoards gap_insertion_index actual_middle_gap custom_w ws (i + 1)
        (y + w +
          (if (i : ℤ) = gap_insertion_index ∧ 0.001 < actual_middle_gap ∧
              custom_w ≤ 0.001 then actual_middle_gap else 0))

/-- Residual resolution block of
`floorboard_logic.calculate_floorboard_parameters` (lines 84–102): decide
whether the span left by the greedy fill becomes a forced small custom board,
a regular custom board, an accepted middle gap, or is dropped.  Returns the
custom board width, the middle gap before recomputation, and the full piece
list. -/
def resolveResidual (force_small_custom_board_bool : Bool)
    (min_forceable_custom_board_width min_custom_lumber_width_in
      max_allowable_middle_gap_in y_remaining_for_lumber : ℚ)
    (std_pieces : List ℚ) : ℚ × ℚ × List ℚ :=
  if force_small_custom_board_bool ∧
      (min_forceable_custom_board_width - 0.001 ≤ y_remaining_for_lumber ∧
        y_remaining_for_lumber < min_custom_lumber_width_in + 0.001) then
    (y_remaining_for_lumber, 0, std_pieces ++ [y_remaining_for_lumber])
  else if min_custom_lumber_width_in - 0.001 ≤ y_remaining_for_lumber then
    (y_remaining_for_lumber, 0, std_pieces ++ [y_remaining_for_lumber])
  else if 0.001 < y_remaining_for_lumber ∧
      y_remaining_for_lumber ≤ max_allowable_middle_gap_in + 0.001 then
    (0, y_remaining_for_lumber, std_pieces)
  else
    (0, 0, std_pieces)

/-- Gap recomputation block of
`floorboard_logic.calculate_floorboard_parameters` (lines 104–108): when a
custom board was appended, the middle gap is recomputed from the running
coverage and zeroed unless it lands in the acceptable window. -/
def recomputeGap (fb_usable_coverage_y_in center_custom_board_width
    gap_before max_allowable_middle_gap_in : ℚ) (all_lumber_pieces : List ℚ) : ℚ :=
  if 0.001 < center_custom_board_width then
    let recomputed := fb_usable_coverage_y_in - all_lumber_pieces.sum
    if 0.001 < recomputed ∧ recomputed ≤ max_allowable_middle_gap_in + 0.001 then
      recomputed
    else 0
  else gap_before

/-- Floorboard packing solver, translated from
`floorboard_logic.calculate_floorboard_parameters` (the identical inline copy
sits at lines 88–116 of `current/nx_expressions_generator.py`). -/
def calculate_floorboard_parameters (crate_overall_width_od_in skid_model_length_in
    panel_thickness_in cleat_thickness_in floorboard_actual_thickness_in : ℚ)
    (selected_std_lumber_widths : List ℚ)
    (max_allowable_middle_gap_in min_custom_lumber_width_in : ℚ)
    (force_small_custom_board_bool : Bool)
    (min_forceable_custom_board_width : ℚ) : FloorboardParameters :=
  let cap_end_gap_each_side := panel_thickness_in + cleat_thickness_in
  let fb_usable_coverage_y_in := skid_model_length_in - 2 * cap_end_gap_each_side
  let fb_initial_start_y_offset_abs := cap_end_gap_each_side
  let sorted_std_lumber_widths_available :=
    List.insertionSort (fun a b => b ≤ a) selected_std_lumber_widths
  let filled :=
    greedyLoop sorted_std_lumber_widths_available
      (fbFuel fb_usable_coverage_y_in sorted_std_lumber_widths_available)
      fb_usable_coverage_y_in
  let std_pieces := filled.1
  let y_remaining_for_lumber := filled.2
  let resolved :=
    resolveResidual force_small_custom_board_bool
      min_forceable_custom_board_width min_custom_lumber_width_in
      max_allowable_middle_gap_in y_remaining_for_lumber std_pieces
  let center_custom_board_width := resolved.1
  let all_lumber_pieces := resolved.2.2
  let actual_middle_gap :=
    recomputeGap fb_usable_coverage_y_in center_custom_board_width
      resolved.2.1 max_allowable_middle_gap_in all_lumber_pieces
  let num_lumber_pieces_for_layout := all_lumber_pieces.length
  let gap_insertion_index : ℤ :=
    if 0.001 < actual_middle_gap then
      pyCeil ((num_lumber_pieces_for_layout : ℚ) / 2) - 1
    else -1
  { actual_length_in := crate_overall_width_od_in
    actual_thickness_in := floorboard_actual_thickness_in
    actual_middle_gap := actual_middle_gap
    center_custom_board_width := center_custom_board_width
    initial_start_y_offset_abs := fb_initial_start_y_offset_abs
    floorboards_data :=
      layoutBoards gap_insertion_index actual_middle_gap center_custom_board_width
        all_lumber_pieces 0 fb_initial_start_y_offset_abs }

/-- Result record of the panel sandwich resolver
(mirrors `panel_logic.PanelParameters`; the current generator computes the
same twelve dimensions inline). -/
structure PanelParameters where
  assembly_overall_thickness : ℚ
  front_calc_width : ℚ
  front_calc_height : ℚ
  front_calc_depth : ℚ
  back_calc_width : ℚ
  back_calc_height : ℚ
  back_calc_depth : ℚ
  end_calc_length : ℚ
  end_calc_height : ℚ
  end_calc_depth : ℚ
  top_calc_width : ℚ
  top_calc_length : ℚ
  top_calc_depth : ℚ
  deriving DecidableEq, Repr

/-- Panel sandwich resolver, translated from
`panel_logic.calculate_panel_parameters` (the variant used by the root
orchestrator). -/
def calculate_panel_parameters (crate_overall_width_od_in crate_overall_length_od_in
    panel_thickness_in cleat_thickness_in product_actual_height_in
    clearance_above_product_in floorboard_actual_thickness_in
    skid_actual_height_in ground_clearance_in : ℚ) : PanelParameters :=
  let panel_assembly_overall_thickness := panel_thickness_in + cleat_thickness_in
  let front_panel_calc_depth := panel_assembly_overall_thickness
  let back_panel_calc_depth := panel_assembly_overall_thickness
  let end_panel_calc_depth := panel_assembly_overall_thickness
  let front_panel_calc_height :=
    product_actual_height_in + clearance_above_product_in +
      floorboard_actual_thickness_in + skid_actual_height_in +
      ground_clearance_in + panel_assembly_overall_thickness
  let back_panel_calc_height := front_panel_calc_height
  let end_panel_calc_height :=
    front_panel_calc_height - ground_clearance_in + skid_actual_height_in
  let end_panel_calc_length :=
    crate_overall_length_od_in - front_panel_calc_depth - back_panel_calc_depth
  let front_panel_calc_width :=
    crate_overall_width_od_in + 2 * end_panel_calc_depth
  let back_panel_calc_width := front_panel_calc_width
  { assembly_overall_thickness := panel_assembly_overall_thickness
    front_calc_width := front_panel_calc_width
    front_calc_height := front_panel_calc_height
    front_calc_depth := front_panel_calc_depth
    back_calc_width := back_panel_calc_width
    back_calc_height := back_panel_calc_height
    back_calc_depth := back_panel_calc_depth
    end_calc_length := end_panel_calc_length
    end_calc_height := end_panel_calc_height
    end_calc_depth := end_panel_calc_depth
    top_calc_width := front_panel_calc_width
    top_calc_length := crate_overall_length_od_in
    top_calc_depth := panel_assembly_overall_thickness }

/-- Panel bounding-box section of
`current/nx_expressions_generator.generate_crate_expressions_logic`
(lines 118–142), the second reference variant of the sandwich resolver. -/
def calculate_panel_boxes_current (crate_overall_width_od_in
    crate_overall_length_od_in panel_thickness_in cleat_thickness_in
    floorboard_actual_thickness_in product_actual_height_in
    clearance_above_product_in skid_actual_height_in ground_clearance_in : ℚ) :
    PanelParameters :=
  let panel_assembly_overall_thickness := panel_thickness_in + cleat_thickness_in
  let front_panel_calc_depth := panel_assembly_overall_thickness
  let back_panel_calc_depth := panel_assembly_overall_thickness
  let end_panel_calc_length :=
    crate_overall_length_od_in - front_panel_calc_depth - back_panel_calc_depth
  let end_panel_calc_height_base :=
    floorboard_actual_thickness_in + product_actual_height_in +
      clearance_above_product_in
  let end_panel_calc_height :=
    end_panel_calc_height_base + (skid_actual_height_in - ground_clearance_in)
  let end_panel_calc_depth := panel_assembly_overall_thickness
  let front_panel_calc_width :=
    crate_overall_width_od_in + 2 * end_panel_calc_depth
  let front_panel_calc_height := end_panel_calc_height_base
  { assembly_overall_thickness := panel_assembly_overall_thickness
    front_calc_width := front_panel_calc_width
    front_calc_height := front_panel_calc_height
    front_calc_depth := front_panel_calc_depth
    back_calc_width := front_panel_calc_width
    back_calc_height := front_panel_calc_height
    back_calc_depth := back_panel_calc_depth
    end_calc_length := end_panel_calc_length
    end_calc_height := end_panel_calc_height
    end_calc_depth := end_panel_calc_depth
    top_calc_width := front_panel_calc_width
    top_calc_length := crate_overall_length_od_in
    top_calc_depth := panel_assembly_overall_thickness }

/-- Sheathing piece dimensions shared by the side-panel component calculators. -/
structure SheathingDims where
  width : ℚ
  height : ℚ
  thickness : ℚ
  deriving DecidableEq, Repr

/-- One group of identical cleats in a panel component record. -/
structure CleatGroup where
  length : ℚ
  material_thickness : ℚ
  material_member_width : ℚ
  count : ℕ
  deriving DecidableEq, Repr

/-- Component record of a front or back panel
(mirrors the dict built by `front_panel_logic.calculate_front_panel_components`). -/
structure FrontPanelComponents where
  plywood : SheathingDims
  horizontal_cleats : CleatGroup
  vertical_cleats : CleatGroup
  deriving DecidableEq, Repr

/-- Front panel component calculator, translated from
`front_panel_logic.calculate_front_panel_components`. -/
def calculate_front_panel_components (front_panel_assembly_width
    front_panel_assembly_height panel_sheathing_thickness
    cleat_material_thickness cleat_material_member_width : ℚ) :
    FrontPanelComponents :=
  let horizontal_cleat_length := front_panel_assembly_width
  let vertical_cleat_length_raw :=
    front_panel_assembly_height - 2 * cleat_material_member_width
  let vertical_cleat_length :=
    if vertical_cleat_length_raw < 0 then 0 else vertical_cleat_length_raw
  { plywood :=
      { width := front_panel_assembly_width
        height := front_panel_assembly_height
        thickness := panel_sheathing_thickness }
    horizontal_cleats :=
      { length := horizontal_cleat_length
        material_thickness := cleat_material_thickness
        material_member_width := cleat_material_member_width
        count := 2 }
    vertical_cleats :=
      { length := vertical_cleat_length
        material_thickness := cleat_material_thickness
        material_member_width := cleat_material_member_width
        count := 2 } }

/-- Back panel component calculator
(`back_panel_logic.calculate_back_panel_components` delegates to the front
panel calculation unchanged). -/
def calculate_back_panel_components (back_panel_assembly_width
    back_panel_assembly_height panel_sheathing_thickness
    cleat_material_thickness cleat_material_member_width : ℚ) :
    FrontPanelComponents :=
  calculate_front_panel_components back_panel_assembly_width
    back_panel_assembly_height panel_sheathing_thickness
    cleat_material_thickness cleat_material_member_width

/-- Component record of an end panel
(mirrors the dict built by `end_panel_logic.calculate_end_panel_components`). -/
structure EndPanelComponents where
  plywood : SheathingDims
  vertical_cleats : CleatGroup
  horizontal_cleats : CleatGroup
  deriving DecidableEq, Repr

/-- End panel component calculator, translated from
`end_panel_logic.calculate_end_panel_components`. -/
def calculate_end_panel_components (end_panel_assembly_face_width
    end_panel_assembly_height panel_sheathing_thickness
    cleat_material_thickness cleat_material_member_width : ℚ) :
    EndPanelComponents :=
  let vertical_cleat_length := end_panel_assembly_height
  let horizontal_cleat_length_raw :=
    end_panel_assembly_face_width - 2 * cleat_material_member_width
  let horizontal_cleat_length :=
    if horizontal_cleat_length_raw < 0 then 0 else horizontal_cleat_length_raw
  { plywood :=
      { width := end_panel_assembly_face_width
        height := end_panel_assembly_height
        thickness := panel_sheathing_thickness }
    vertical_cleats :=
      { length := vertical_cleat_length
        material_thickness := cleat_material_thickness
        material_member_width := cleat_material_member_width
        count := 2 }
    horizontal_cleats :=
      { length := horizontal_cleat_length
        material_thickness := cleat_material_thickness
        material_member_width := cleat_material_member_width
        count := 2 } }

/-- Sheathing piece of the top panel (width across, length along the crate). -/
structure TopSheathingDims where
  width : ℚ
  length : ℚ
  thickness : ℚ
  deriving DecidableEq, Repr

/-- Component record of the top panel
(mirrors the dict built by `top_panel_logic.calculate_top_panel_components`). -/
structure TopPanelComponents where
  plywood : TopSheathingDims
  primary_cleats : CleatGroup
  secondary_cleats : CleatGroup
  deriving DecidableEq, Repr

/-- Top panel component calculator, translated from
`top_panel_logic.calculate_top_panel_components`. -/
def calculate_top_panel_components (top_panel_assembly_width
    top_panel_assembly_length panel_sheathing_thickness
    cleat_material_thickness cleat_material_member_width : ℚ) :
    TopPanelComponents :=
  let primary_cleat_length := top_panel_assembly_length
  let secondary_cleat_length_raw :=
    top_panel_assembly_width - 2 * cleat_material_member_width
  let secondary_cleat_length :=
    if secondary_cleat_length_raw < 0 then 0 else secondary_cleat_length_raw
  { plywood :=
      { width := top_panel_assembly_width
        length := top_panel_assembly_length
        thickness := panel_sheathing_thickness }
    primary_cleats :=
      { length := primary_cleat_length
        material_thickness := cleat_material_thickness
        material_member_width := cleat_material_member_width
        count := 2 }
    secondary_cleats :=
      { length := secondary_cleat_length
        material_thickness := cleat_material_thickness
        material_member_width := cleat_material_member_width
        count := 2 } }

/-- Constant `MIN_FORCEABLE_CUSTOM_BOARD_WIDTH` of `main_orchestrator.py`
(also duplicated in `current/nx_expressions_generator.py`). -/
def MIN_FORCEABLE_CUSTOM_BOARD_WIDTH : ℚ := 0.25

/-- Structured request consumed by the root orchestrator
(the keys read from the `inputs` dict of `main_orchestrator.py`). -/
structure Inputs where
  product_weight_lbs : ℚ
  product_length_in : ℚ
  product_width_in : ℚ
  clearance_each_side_in : ℚ
  allow_3x4_skids_bool : Bool
  panel_thickness_in : ℚ
  cleat_thickness_in : ℚ
  product_actual_height_in : ℚ
  clearance_above_product_in : ℚ
  ground_clearance_in : ℚ
  floorboard_actual_thickness_in : ℚ
  selected_std_lumber_widths : List ℚ
  max_allowable_middle_gap_in : ℚ
  min_custom_lumber_width_in : ℚ
  force_small_custom_board_bool : Bool
  deriving DecidableEq, Repr

/-- Input validation, translated from `main_orchestrator.validate_inputs`:
the first failing check yields its message, `none` means valid. -/
def validate_inputs (i : Inputs) : Option String :=
  if i.product_weight_lbs < 0 then
    some "Product weight must be non-negative."
  else if i.product_length_in ≤ 0 then
    some "Product length must be positive."
  else if i.product_width_in ≤ 0 then
    some "Product width must be positive."
  else if i.clearance_each_side_in < 0 then
    some "Clearance cannot be negative."
  else if i.panel_thickness_in ≤ 0 then
    some "Panel sheathing thickness must be positive."
  else if i.cleat_thickness_in < 0 then
    some "Cleat thickness cannot be negative (can be 0)."
  else if i.product_actual_height_in ≤ 0 then
    some "Product actual height must be positive."
  else if i.clearance_above_product_in < 0 then
    some "Clearance above product cannot be negative."
  else if i.ground_clearance_in < 0 then
    some "Ground clearance cannot be negative."
  else if i.floorboard_actual_thickness_in ≤ 0 then
    some "Floorboard thickness must be positive."
  else if i.selected_std_lumber_widths = [] then
    some "No standard lumber selected for floorboards."
  else if i.max_allowable_middle_gap_in < 0 then
    some "Max middle gap cannot be negative."
  else if i.min_custom_lumber_width_in ≤ 0 then
    some "Min custom lumber width must be positive."
  else if i.min_custom_lumber_width_in < MIN_FORCEABLE_CUSTOM_BOARD_WIDTH ∧
      i.force_small_custom_board_bool then
    some "Min custom board width generally cannot be less than 0.25 inches."
  else
    none

/-- Consolidated result of one derivation run: the three solver outputs plus
the overall crate dimensions, exactly what `main_orchestrator.
generate_crate_expressions` hands to the expression-file writer. -/
structure DerivationRecord where
  skid_params : SkidParameters
  floorboard_params : FloorboardParameters
  panel_params : PanelParameters
  crate_overall_width_od_in : ℚ
  crate_overall_length_od_in : ℚ
  deriving DecidableEq, Repr

/-- Derivation pipeline of `main_orchestrator.generate_crate_expressions`:
validate, then run the skid, floorboard and panel solvers in order.  A
validation failure returns the tagged message and runs no solver. -/
def run_derivation (i : Inputs) : Except String DerivationRecord :=
  match validate_inputs i with
  | some msg => Except.error msg
  | none =>
    let skid_params := calculate_skid_parameters i.product_weight_lbs
      i.product_length_in i.product_width_in i.clearance_each_side_in
      i.allow_3x4_skids_bool
    let crate_overall_width_od_in :=
      i.product_width_in + 2 * i.clearance_each_side_in
    let crate_overall_length_od_in := skid_params.model_length_in
    let floorboard_params := calculate_floorboard_parameters
      crate_overall_width_od_in skid_params.model_length_in
      i.panel_thickness_in i.cleat_thickness_in
      i.floorboard_actual_thickness_in i.selected_std_lumber_widths
      i.max_allowable_middle_gap_in i.min_custom_lumber_width_in
      i.force_small_custom_board_bool MIN_FORCEABLE_CUSTOM_BOARD_WIDTH
    let panel_params := calculate_panel_parameters crate_overall_width_od_in
      crate_overall_length_od_in i.panel_thickness_in i.cleat_thickness_in
      i.product_actual_height_in i.clearance_above_product_in
      i.floorboard_actual_thickness_in skid_params.actual_height_in
      i.ground_clearance_in
    Except.ok
      { skid_params := skid_params
        floorboard_params := floorboard_params
        panel_params := panel_params
        crate_overall_width_od_in := crate_overall_width_od_in
        crate_overall_length_od_in := crate_overall_length_od_in }

/-- One line of the generated expressions file.  Comment lines carry their
full text; value lines record the label, the exact value and any trailing
text, with the number format (`%.3f`, `%.4f`, integer) captured by the
constructor.  Rendering a line is injective per constructor, so equality of
`ExpLine` lists models byte-identity of the written file. -/
inductive ExpLine where
  | text (s : String)
  | q3 (label : String) (v : ℚ) (post : String)
  | q4 (label : String) (v : ℚ) (post : String)
  | intE (label : String) (v : ℤ) (post : String)
  deriving DecidableEq, Repr

/-- Constant `MAX_NX_FLOORBOARD_INSTANCES` of `nx_generator.py`. -/
def MAX_NX_FLOORBOARD_INSTANCES : ℕ := 20

/-- Three expression lines of one floorboard instance slot of the fixed-size
instance table written by `nx_generator.generate_nx_expressions_file`. -/
def floorboardInstanceLines (boards : List FloorboardData) (i : ℕ) :
    List ExpLine :=
  let n := toString (i + 1)
  match boards.get? i with
  | some board =>
    [ExpLine.intE ("FB_Inst_" ++ n ++ "_Suppress_Flag") 0 "",
     ExpLine.q4 ("[Inch]FB_Inst_" ++ n ++ "_Actual_Width") board.width "",
     ExpLine.q4 ("[Inch]FB_Inst_" ++ n ++ "_Y_Pos_Abs") board.y_pos ""]
  | none =>
    [ExpLine.intE ("FB_Inst_" ++ n ++ "_Suppress_Flag") 1 "",
     ExpLine.q4 ("[Inch]FB_Inst_" ++ n ++ "_Actual_Width") 0.0001 "",
     ExpLine.q4 ("[Inch]FB_Inst_" ++ n ++ "_Y_Pos_Abs") 0 ""]

/-- Content of the expressions file, translated from
`nx_generator.generate_nx_expressions_file`.  The wall-clock timestamp the
Python code interpolates into the header is passed in as `timestamp`. -/
def generate_nx_expressions_content (i : Inputs) (r : DerivationRecord)
    (timestamp : String) : List ExpLine :=
  [ExpLine.text "// NX Expressions - Skids, Floorboards & Panels (Sandwich Logic Corrected)",
   ExpLine.text ("// Generated: " ++ timestamp ++ "\n"),
   ExpLine.text "// --- USER INPUTS & CRATE CONSTANTS ---",
   ExpLine.q3 "[lbm]product_weight" i.product_weight_lbs "",
   ExpLine.q3 "[Inch]product_length_input" i.product_length_in "",
   ExpLine.q3 "[Inch]product_width_input" i.product_width_in "",
   ExpLine.q3 "[Inch]clearance_side_input" i.clearance_each_side_in "",
   ExpLine.intE "BOOL_Allow_3x4_Skids_Input"
     (if i.allow_3x4_skids_bool then 1 else 0) "",
   ExpLine.q3 "[Inch]INPUT_Panel_Thickness" i.panel_thickness_in "",
   ExpLine.q3 "[Inch]INPUT_Cleat_Thickness" i.cleat_thickness_in "",
   ExpLine.q3 "[Inch]INPUT_Product_Actual_Height" i.product_actual_height_in "",
   ExpLine.q3 "[Inch]INPUT_Clearance_Above_Product"
     i.clearance_above_product_in "",
   ExpLine.q3 "[Inch]INPUT_Ground_Clearance_End_Panels" i.ground_clearance_in "",
   ExpLine.intE "BOOL_Force_Small_Custom_Floorboard"
     (if i.force_small_custom_board_bool then 1 else 0) "",
   ExpLine.q3 "[Inch]INPUT_Floorboard_Actual_Thickness"
     i.floorboard_actual_thickness_in "",
   ExpLine.q3 "[Inch]INPUT_Max_Allowable_Middle_Gap"
     i.max_allowable_middle_gap_in "",
   ExpLine.q3 "[Inch]INPUT_Min_Custom_Lumber_Width"
     i.min_custom_lumber_width_in "\n",
   ExpLine.text "// --- CALCULATED CRATE DIMENSIONS ---",
   ExpLine.q3 "[Inch]crate_overall_width_OD" r.crate_overall_width_od_in "",
   ExpLine.q3 "[Inch]crate_overall_length_OD" r.crate_overall_length_od_in "\n",
   ExpLine.text "// --- SKID PARAMETERS ---",
   ExpLine.text ("// Skid Lumber Callout: " ++ r.skid_params.lumber_callout),
   ExpLine.q3 "[Inch]Skid_Actual_Height" r.skid_params.actual_height_in "",
   ExpLine.q3 "[Inch]Skid_Actual_Width" r.skid_params.actual_width_in "",
   ExpLine.q3 "[Inch]Skid_Actual_Length" r.skid_params.model_length_in "",
   ExpLine.intE "CALC_Skid_Count" r.skid_params.count "",
   ExpLine.q4 "[Inch]CALC_Skid_Pitch" r.skid_params.pitch_in "",
   ExpLine.q4 "[Inch]CALC_First_Skid_Pos_X" r.skid_params.first_pos_x_in "",
   ExpLine.q4 "[Inch]X_Master_Skid_Origin_Offset"
     r.skid_params.master_origin_offset_in "\n",
   ExpLine.text "// --- FLOORBOARD PARAMETERS ---",
   ExpLine.q3 "[Inch]FB_Board_Actual_Length"
     r.floorboard_params.actual_length_in "",
   ExpLine.q3 "[Inch]FB_Board_Actual_Thickness"
     r.floorboard_params.actual_thickness_in "",
   ExpLine.q4 "[Inch]CALC_FB_Actual_Middle_Gap"
     r.floorboard_params.actual_middle_gap "",
   ExpLine.q4 "[Inch]CALC_FB_Center_Custom_Board_Width"
     (if 0.001 < r.floorboard_params.center_custom_board_width then
       r.floorboard_params.center_custom_board_width else 0) "",
   ExpLine.q3 "[Inch]CALC_FB_Start_Y_Offset_Abs"
     r.floorboard_params.initial_start_y_offset_abs "\n",
   ExpLine.text "// Floorboard Instance Data"] ++
  (List.range MAX_NX_FLOORBOARD_INSTANCES).flatMap
    (floorboardInstanceLines r.floorboard_params.floorboards_data) ++
  [ExpLine.text "\n// --- PANEL BOUNDING BOX PARAMETERS ---",
   ExpLine.q3 "[Inch]PANEL_Front_Calc_Width" r.panel_params.front_calc_width "",
   ExpLine.q3 "[Inch]PANEL_Front_Calc_Height" r.panel_params.front_calc_height "",
   ExpLine.q3 "[Inch]PANEL_Front_Calc_Depth"
     r.panel_params.front_calc_depth "\n",
   ExpLine.q3 "[Inch]PANEL_Back_Calc_Width" r.panel_params.back_calc_width "",
   ExpLine.q3 "[Inch]PANEL_Back_Calc_Height" r.panel_params.back_calc_height "",
   ExpLine.q3 "[Inch]PANEL_Back_Calc_Depth" r.panel_params.back_calc_depth "\n",
   ExpLine.q3 "[Inch]PANEL_End_Calc_Length" r.panel_params.end_calc_length
     " // For Left & Right End Panels",
   ExpLine.q3 "[Inch]PANEL_End_Calc_Height" r.panel_params.end_calc_height
     " // For Left & Right End Panels",
   ExpLine.q3 "[Inch]PANEL_End_Calc_Depth" r.panel_params.end_calc_depth
     " // For Left & Right End Panels\n",
   ExpLine.q3 "[Inch]PANEL_Top_Calc_Width" r.panel_params.top_calc_width "",
   ExpLine.q3 "[Inch]PANEL_Top_Calc_Length" r.panel_params.top_calc_length "",
   ExpLine.q3 "[Inch]PANEL_Top_Calc_Depth" r.panel_params.top_calc_depth "\n",
   ExpLine.text "// End of Expressions"]

/-- Full run of the root orchestrator as observed through the generated
expressions content: `main_orchestrator.generate_crate_expressions` followed
by `nx_generator.generate_nx_expressions_file`, with the wall-clock reading
made an explicit argument. -/
def generate_crate_expressions (i : Inputs) (timestamp : String) :
    Except String (List ExpLine) :=
  (run_derivation i).map
    (fun r => generate_nx_expressions_content i r timestamp)

/-- Structured request of
`current/nx_expressions_generator.generate_crate_expressions_logic`
(the root inputs plus the cleat member actual width). -/
structure CurrentInputs where
  product_weight_lbs : ℚ
  product_length_in : ℚ
  product_width_in : ℚ
  clearance_each_side_in : ℚ
  allow_3x4_skids_bool : Bool
  panel_thickness_in : ℚ
  cleat_thickness_in : ℚ
  cleat_member_actual_width_in : ℚ
  product_actual_height_in : ℚ
  clearance_above_product_in : ℚ
  ground_clearance_in : ℚ
  floorboard_actual_thickness_in : ℚ
  selected_std_lumber_widths : List ℚ
  max_allowable_middle_gap_in : ℚ
  min_custom_lumber_width_in : ℚ
  force_small_custom_board_bool : Bool
  deriving DecidableEq, Repr

/-- Inline validation ladder of
`current/nx_expressions_generator.generate_crate_expressions_logic`
(lines 39–55). -/
def validate_inputs_current (i : CurrentInputs) : Option String :=
  if i.product_weight_lbs < 0 then some "Product weight invalid."
  else if i.product_length_in ≤ 0 then some "Product length must be positive."
  else if i.product_width_in ≤ 0 then some "Product width must be positive."
  else if i.clearance_each_side_in < 0 then some "Clearance cannot be negative."
  else if i.panel_thickness_in ≤ 0 then
    some "Panel sheathing thickness must be positive."
  else if i.cleat_thickness_in < 0 then
    some "Cleat thickness cannot be negative (can be 0)."
  else if i.cleat_member_actual_width_in ≤ 0 then
    some "Cleat member actual width must be positive."
  else if i.product_actual_height_in ≤ 0 then
    some "Product actual height must be positive."
  else if i.clearance_above_product_in < 0 then
    some "Clearance above product cannot be negative."
  else if i.ground_clearance_in < 0 then
    some "Ground clearance cannot be negative."
  else if i.floorboard_actual_thickness_in ≤ 0 then
    some "Floorboard thickness must be positive."
  else if i.selected_std_lumber_widths = [] then
    some "No standard lumber selected for floorboards."
  else if i.max_allowable_middle_gap_in < 0 then
    some "Max middle gap cannot be negative."
  else if i.min_custom_lumber_width_in ≤ 0 then
    some "Min custom lumber width must be positive."
  else if i.min_custom_lumber_width_in < MIN_FORCEABLE_CUSTOM_BOARD_WIDTH ∧
      i.force_small_custom_board_bool then
    some "Min custom board width generally cannot be less than 0.25 inches."
  else none

/-- Everything the current generator computes before serializing: skid and
floorboard results, panel bounding boxes, and the four detailed component
records.  The Python function returns `(True, message)` after writing the
file; the record models the full computation, `Except.ok` the success flag. -/
structure CurrentRecord where
  skid_params : SkidParameters
  crate_overall_width_od_in : ℚ
  crate_overall_length_od_in : ℚ
  floorboard_params : FloorboardParameters
  panel_boxes : PanelParameters
  front_panel_components : FrontPanelComponents
  back_panel_components : FrontPanelComponents
  end_panel_components : EndPanelComponents
  top_panel_components : TopPanelComponents
  deriving DecidableEq, Repr

/-- Derivation pipeline of
`current/nx_expressions_generator.generate_crate_expressions_logic`: the
inline skid and floorboard calculations are byte-for-byte the ones of
`skid_logic.py` and `floorboard_logic.py` and reuse their translations here;
then the current panel-box variant and the four component calculators run. -/
def generate_crate_expressions_logic (i : CurrentInputs) :
    Except String CurrentRecord :=
  match validate_inputs_current i with
  | some msg => Except.error msg
  | none =>
    let skid_params := calculate_skid_parameters i.product_weight_lbs
      i.product_length_in i.product_width_in i.clearance_each_side_in
      i.allow_3x4_skids_bool
    let crate_overall_width_od_in :=
      i.product_width_in + 2 * i.clearance_each_side_in
    let crate_overall_length_od_in := skid_params.model_length_in
    let floorboard_params := calculate_floorboard_parameters
      crate_overall_width_od_in skid_params.model_length_in
      i.panel_thickness_in i.cleat_thickness_in
      i.floorboard_actual_thickness_in i.selected_std_lumber_widths
      i.max_allowable_middle_gap_in i.min_custom_lumber_width_in
      i.force_small_custom_board_bool MIN_FORCEABLE_CUSTOM_BOARD_WIDTH
    let panel_boxes := calculate_panel_boxes_current crate_overall_width_od_in
      crate_overall_length_od_in i.panel_thickness_in i.cleat_thickness_in
      i.floorboard_actual_thickness_in i.product_actual_height_in
      i.clearance_above_product_in skid_params.actual_height_in
      i.ground_clearance_in
    Except.ok
      { skid_params := skid_params
        crate_overall_width_od_in := crate_overall_width_od_in
        crate_overall_length_od_in := crate_overall_length_od_in
        floorboard_params := floorboard_params
        panel_boxes := panel_boxes
        front_panel_components := calculate_front_panel_components
          panel_boxes.front_calc_width panel_boxes.front_calc_height
          i.panel_thickness_in i.cleat_thickness_in
          i.cleat_member_actual_width_in
        back_panel_components := calculate_back_panel_components
          panel_boxes.back_calc_width panel_boxes.back_calc_height
          i.panel_thickness_in i.cleat_thickness_in
          i.cleat_member_actual_width_in
        end_panel_components := calculate_end_panel_components
          panel_boxes.end_calc_length panel_boxes.end_calc_height
          i.panel_thickness_in i.cleat_thickness_in
          i.cleat_member_actual_width_in
        top_panel_components := calculate_top_panel_components
          panel_boxes.top_calc_width panel_boxes.top_calc_length
          i.panel_thickness_in i.cleat_thickness_in
          i.cleat_member_actual_width_in }

/-! Helper lemmas about the greedy packing loop. -/

theorem pyCeil_eq_ceil (q : ℚ) : pyCeil q = Int.ceil q := by
  have h : Rat.floor (-q) = Int.floor (-q) := rfl
  rw [pyCeil, h, Int.floor_neg, neg_neg]

theorem greedyLoop_sum (l : List ℚ) (f : ℕ) :
    ∀ rem : ℚ, (greedyLoop l f rem).1.sum + (greedyLoop l f rem).2 = rem := by
  induction f with
  | zero => intro rem; simp [greedyLoop]
  | succ f ih =>
    intro rem
    by_cases hb : 0 < bestFit l rem
    · simp only [greedyLoop, if_pos hb, List.sum_cons]
      have := ih (rem - bestFit l rem)
      linarith
    · simp [greedyLoop, if_neg hb]

theorem bestFit_fits {l : List ℚ} {rem : ℚ} (h : 0 < bestFit l rem) :
    bestFit l rem ∈ l ∧ bestFit l rem ≤ rem + 0.001 := by
  unfold bestFit at *
  cases hf : l.find? (fun w => w ≤ rem + 0.001) with
  | none => rw [hf] at h; simp at h
  | some w =>
    simp only [Option.getD_some]
    exact ⟨List.mem_of_find?_eq_some hf,
      by have := List.find?_some hf; simpa using this⟩

theorem fits_le_bestFit {l : List ℚ} {rem w : ℚ}
    (hs : List.Sorted (fun a b => b ≤ a) l) (hw : w ∈ l)
    (hfit : w ≤ rem + 0.001) : w ≤ bestFit l rem := by
  induction l with
  | nil => simp at hw
  | cons a t ih =>
    rw [List.sorted_cons] at hs
    by_cases ha : a ≤ rem + 0.001
    · have : bestFit (a :: t) rem = a := by
        unfold bestFit
        rw [List.find?_cons_of_pos _ (by simpa using ha)]
        rfl
      rw [this]
      rcases List.mem_cons.mp hw with rfl | hwt
      · exact le_refl w
      · exact hs.1 w hwt
    · have hne : w ≠ a := fun he => ha (he ▸ hfit)
      have hwt : w ∈ t := (List.mem_cons.mp hw).resolve_left hne
      have : bestFit (a :: t) rem = bestFit t rem := by
        unfold bestFit
        rw [List.find?_cons_of_neg _ (by simpa using ha)]
      rw [this]
      exact ih hs.2 hwt

theorem no_fit_of_bestFit_nonpos {l : List ℚ} {rem w : ℚ}
    (hs : List.Sorted (fun a b => b ≤ a) l) (h : bestFit l rem ≤ 0)
    (hw : w ∈ l) (hpos : 0 < w) : ¬ w ≤ rem + 0.001 := fun hfit =>
  absurd (le_trans (fits_le_bestFit hs hw hfit) h) (not_le.mpr hpos)

theorem minPos_pos (l : List ℚ) : 0 < minPos l := by
  induction l with
  | nil => norm_num [minPos]
  | cons a t ih =>
    simp only [minPos, List.foldr_cons] at *
    by_cases ha : 0 < a
    · rw [if_pos ha]; exact lt_min ha ih
    · rw [if_neg ha]; exact ih

theorem minPos_le {l : List ℚ} {w : ℚ} (hw : w ∈ l) (hpos : 0 < w) :
    minPos l ≤ w := by
  induction l with
  | nil => simp at hw
  | cons a t ih =>
    simp only [minPos, List.foldr_cons] at *
    rcases List.mem_cons.mp hw with rfl | hwt
    · rw [if_pos hpos]; exact min_le_left _ _
    · by_cases ha : 0 < a
      · rw [if_pos ha]; exact le_trans (min_le_right _ _) (ih hwt)
      · rw [if_neg ha]; exact ih hwt

theorem greedy_exit {l : List ℚ} {m : ℚ}
    (hlb : ∀ w ∈ l, 0 < w → m ≤ w) :
    ∀ f : ℕ, ∀ rem : ℚ, rem + 0.001 ≤ m * f →
      bestFit l (greedyLoop l f rem).2 ≤ 0 := by
  intro f
  induction f with
  | zero =>
    intro rem hrem
    simp only [greedyLoop]
    by_contra hb
    push_neg at hb
    obtain ⟨hmem, hfit⟩ := bestFit_fits hb
    have := hlb _ hmem hb
    push_cast at hrem
    linarith
  | succ f ih =>
    intro rem hrem
    by_cases hb : 0 < bestFit l rem
    · simp only [greedyLoop, if_pos hb]
      apply ih
      obtain ⟨hmem, _⟩ := bestFit_fits hb
      have hmb := hlb _ hmem hb
      push_cast at hrem ⊢
      linarith
    · simp only [greedyLoop, if_neg hb]
      exact not_lt.mp hb

theorem rat_mul_den_eq_num (q : ℚ) : q * (q.den : ℚ) = (q.num : ℚ) := by
  have hden0 : ((q.den : ℚ)) ≠ 0 := by
    exact_mod_cast q.den_nz
  have h := Rat.num_div_den q
  rw [div_eq_iff hden0] at h
  linarith

theorem rat_le_num_toNat (q : ℚ) : q ≤ (q.num.toNat : ℚ) := by
  rcases le_or_lt 0 q.num with hn | hn
  · have hcast : ((q.num.toNat : ℕ) : ℚ) = (q.num : ℚ) := by
      exact_mod_cast congrArg (fun z : ℤ => (z : ℚ)) (Int.toNat_of_nonneg hn)
    rw [hcast]
    have hq : 0 ≤ q := Rat.num_nonneg.mp hn
    have hden : (1 : ℚ) ≤ (q.den : ℚ) := by
      exact_mod_cast Nat.one_le_iff_ne_zero.mpr q.den_nz
    have h1 : q * 1 ≤ q * (q.den : ℚ) := mul_le_mul_of_nonneg_left hden hq
    have h2 := rat_mul_den_eq_num q
    rw [mul_one] at h1
    linarith
  · have hq : q < 0 := by
      by_contra hq
      push_neg at hq
      exact absurd (Rat.num_nonneg.mpr hq) (not_le.mpr hn)
    have h0 : q.num.toNat = 0 := Int.toNat_of_nonpos hn.le
    rw [h0]
    push_cast
    linarith

theorem fbFuel_adequate (usable : ℚ) (l : List ℚ) :
    usable + 0.001 ≤ minPos l * fbFuel usable l := by
  set m := minPos l with hmdef
  have hm : 0 < m := minPos_pos l
  have hnum : (1 : ℤ) ≤ m.num := by
    have := Rat.num_pos.mpr hm
    omega
  have hden : m * (m.den : ℚ) = (m.num : ℚ) := rat_mul_den_eq_num m
  have hY : usable ≤ (usable.num.toNat : ℚ) := rat_le_num_toNat usable
  have expand : m * (fbFuel usable l : ℚ) =
      (m.num : ℚ) * ((usable.num.toNat : ℚ) + 1) := by
    unfold fbFuel
    rw [← hmdef]
    push_cast
    ring_nf
    nlinarith [hden]
  have hfuel : (usable.num.toNat : ℚ) + 1 ≤
      (m.num : ℚ) * ((usable.num.toNat : ℚ) + 1) := by
    have h1 : (1 : ℚ) ≤ (m.num : ℚ) := by exact_mod_cast hnum
    nlinarith [Nat.cast_nonneg (α := ℚ) usable.num.toNat]
  have : usable + 0.001 ≤ (usable.num.toNat : ℚ) + 1 := by
    norm_num
    linarith
  calc usable + 0.001 ≤ (usable.num.toNat : ℚ) + 1 := this
    _ ≤ (m.num : ℚ) * ((usable.num.toNat : ℚ) + 1) := hfuel
    _ = m * (fbFuel usable l : ℚ) := expand.symm
    _ = m * fbFuel usable l := by norm_num

theorem greedyLoop_get (l : List ℚ) (f : ℕ) :
    ∀ (rem : ℚ) (i : ℕ), i < (greedyLoop l f rem).1.length →
      (greedyLoop l f rem).1.getD i 0 =
        bestFit l (rem - ((greedyLoop l f rem).1.take i).sum) ∧
      0 < (greedyLoop l f rem).1.getD i 0 := by
  induction f with
  | zero => intro rem i h; simp [greedyLoop] at h
  | succ f ih =>
    intro rem i h
    have heq : greedyLoop l (f + 1) rem =
        (if 0 < bestFit l rem then
          (bestFit l rem :: (greedyLoop l f (rem - bestFit l rem)).1,
            (greedyLoop l f (rem - bestFit l rem)).2)
        else ([], rem)) := rfl
    by_cases hb : 0 < bestFit l rem
    · rw [heq, if_pos hb] at h ⊢
      cases i with
      | zero =>
        simp only [List.getD_cons_zero, List.take_zero, List.sum_nil, sub_zero]
        exact ⟨trivial, hb⟩
      | succ i =>
        have h' : i < (greedyLoop l f (rem - bestFit l rem)).1.length := by
          simpa using h
        have hrec := ih (rem - bestFit l rem) i h'
        simp only [List.getD_cons_succ, List.take_succ_cons, List.sum_cons]
        have harg : rem - (bestFit l rem +
            ((greedyLoop l f (rem - bestFit l rem)).1.take i).sum) =
            rem - bestFit l rem -
              ((greedyLoop l f (rem - bestFit l rem)).1.take i).sum := by ring
        rw [harg]
        exact hrec
    · rw [heq, if_neg hb] at h
      simp at h

theorem layoutBoards_widths (gi : ℤ) (g c : ℚ) :
    ∀ (l : List ℚ) (i : ℕ) (y : ℚ),
      (layoutBoards gi g c l i y).map FloorboardData.width = l := by
  intro l
  induction l with
  | nil => intro i y; simp [layoutBoards]
  | cons w ws ih => intro i y; simp [layoutBoards, ih]

/-- Combined behavior of the residual resolution and gap recomputation blocks
given the loop invariant `std_pieces.sum + r = Y`: whenever any of the three
resolution branches fires, the emitted pieces plus the final gap cover `Y`
exactly; otherwise both the custom width and the gap are zero and coverage
falls short of `Y` by exactly the unresolved residual `r`. -/
theorem coverage_of_resolution (force : Bool) (minF minC maxGap Y r : ℚ)
    (ps : List ℚ) (hsum : ps.sum + r = Y) :
    ((( force ∧ (minF - 0.001 ≤ r ∧ r < minC + 0.001)) ∨
        minC - 0.001 ≤ r ∨
        (0.001 < r ∧ r ≤ maxGap + 0.001)) →
      (resolveResidual force minF minC maxGap r ps).2.2.sum +
        recomputeGap Y (resolveResidual force minF minC maxGap r ps).1
          (resolveResidual force minF minC maxGap r ps).2.1 maxGap
          (resolveResidual force minF minC maxGap r ps).2.2 = Y) ∧
    (¬ ((( force ∧ (minF - 0.001 ≤ r ∧ r < minC + 0.001)) ∨
        minC - 0.001 ≤ r ∨
        (0.001 < r ∧ r ≤ maxGap + 0.001))) →
      (resolveResidual force minF minC maxGap r ps).1 = 0 ∧
      recomputeGap Y (resolveResidual force minF minC maxGap r ps).1
          (resolveResidual force minF minC maxGap r ps).2.1 maxGap
          (resolveResidual force minF minC maxGap r ps).2.2 = 0 ∧
      (resolveResidual force minF minC maxGap r ps).2.2.sum = Y - r) := by
  unfold resolveResidual recomputeGap
  by_cases hA : (force : Prop) ∧ (minF - 0.001 ≤ r ∧ r < minC + 0.001)
  · simp only [if_pos hA]
    constructor
    · intro _
      by_cases hr : 0.001 < r
      · simp only [if_pos hr, List.sum_append, List.sum_cons, List.sum_nil]
        have hz : Y - (ps.sum + (r + 0)) = 0 := by linarith
        rw [hz]
        norm_num
        linarith
      · simp only [if_neg hr, List.sum_append, List.sum_cons, List.sum_nil]
        linarith
    · intro hcon
      exact absurd (Or.inl hA) hcon
  · simp only [if_neg hA]
    by_cases hB : minC - 0.001 ≤ r
    · simp only [if_pos hB]
      constructor
      · intro _
        by_cases hr : 0.001 < r
        · simp only [if_pos hr, List.sum_append, List.sum_cons, List.sum_nil]
          have hz : Y - (ps.sum + (r + 0)) = 0 := by linarith
          rw [hz]
          norm_num
          linarith
        · simp only [if_neg hr, List.sum_append, List.sum_cons, List.sum_nil]
          linarith
      · intro hcon
        exact absurd (Or.inr (Or.inl hB)) hcon
    · simp only [if_neg hB]
      by_cases hC : 0.001 < r ∧ r ≤ maxGap + 0.001
      · simp only [if_pos hC]
        constructor
        · intro _
          have hcust : ¬ ((0.001 : ℚ) < 0) := by norm_num
          simp only [if_neg hcust]
          linarith
        · intro hcon
          exact absurd (Or.inr (Or.inr hC)) hcon
      · simp only [if_neg hC]
        constructor
        · intro habs
          rcases habs with h | h | h
          · exact absurd h hA
          · exact absurd h hB
          · exact absurd h hC
        · intro _
          have hcust : ¬ ((0.001 : ℚ) < 0) := by norm_num
          simp only [if_neg hcust]
          exact ⟨by simp, by simp, by linarith⟩

/-- Core arithmetic of the multi-skid branch: with a positive spacing rule and
a crate strictly wider than the skid (beyond tolerance), the raw count is at
least 2 and the resulting pitch lands in `(0, spacing]`. -/
theorem pitch_core (W wsk sp : ℚ) (hsp : 0 < sp) (h : wsk + 0.0001 < W) :
    2 ≤ pyCeil ((W - wsk) / sp) + 1 ∧
    0 < (W - wsk) / (((pyCeil ((W - wsk) / sp) + 1 : ℤ) : ℚ) - 1) ∧
    (W - wsk) / (((pyCeil ((W - wsk) / sp) + 1 : ℤ) : ℚ) - 1) ≤ sp := by
  have hspan : 0 < W - wsk := by linarith
  have hq : 0 < (W - wsk) / sp := div_pos hspan hsp
  have hceil : 0 < Int.ceil ((W - wsk) / sp) := Int.ceil_pos.mpr hq
  rw [pyCeil_eq_ceil]
  have hge1 : (1 : ℚ) ≤ ((Int.ceil ((W - wsk) / sp) : ℤ) : ℚ) := by
    exact_mod_cast hceil
  have hden : (0 : ℚ) < ((Int.ceil ((W - wsk) / sp) + 1 : ℤ) : ℚ) - 1 := by
    push_cast
    linarith
  refine ⟨by omega, div_pos hspan hden, ?_⟩
  rw [div_le_iff₀ hden]
  have hle : (W - wsk) / sp ≤ ((Int.ceil ((W - wsk) / sp) : ℤ) : ℚ) :=
    Int.le_ceil _
  rw [div_le_iff₀ hsp] at hle
  push_cast
  nlinarith

theorem skidCpf_single (W wsk sp : ℚ) (h : W ≤ wsk + 0.0001) :
    skidCpf W wsk sp = (1, 0, 0) := by
  unfold skidCpf
  rw [if_pos h]

theorem skidCpf_multi (W wsk sp : ℚ) (hsp : 0 < sp) (h : ¬ W ≤ wsk + 0.0001) :
    (skidCpf W wsk sp).1 = max 2 (Int.ceil ((W - wsk) / sp) + 1) ∧
    (skidCpf W wsk sp).2.1 =
      (W - wsk) / (((skidCpf W wsk sp).1 : ℚ) - 1) ∧
    0 < (skidCpf W wsk sp).2.1 ∧ (skidCpf W wsk sp).2.1 ≤ sp := by
  have h' : wsk + 0.0001 < W := not_le.mp h
  obtain ⟨hge2, hpos, hle⟩ := pitch_core W wsk sp hsp h'
  have hc : ¬ (pyCeil ((W - wsk) / sp) + 1 < 2) := by omega
  have h1lt : 1 < pyCeil ((W - wsk) / sp) + 1 := by omega
  unfold skidCpf
  rw [if_neg h]
  dsimp only
  rw [if_neg hc, if_pos h1lt]
  refine ⟨?_, rfl, hpos, hle⟩
  rw [pyCeil_eq_ceil] at hge2 ⊢
  omega

theorem skid_fields (w l wd cl : ℚ) (al : Bool) :
    ((calculate_skid_parameters w l wd cl al).count,
      (calculate_skid_parameters w l wd cl al).pitch_in,
      (calculate_skid_parameters w l wd cl al).first_pos_x_in) =
      skidCpf (wd + 2 * cl)
        (calculate_skid_parameters w l wd cl al).actual_width_in
        (calculate_skid_parameters w l wd cl al).max_spacing_rule_in := rfl

theorem skid_spacing (w l wd cl : ℚ) (al : Bool) :
    (((al ∧ w < 500) ∨ w < 4500) →
      (calculate_skid_parameters w l wd cl al).max_spacing_rule_in = 30) ∧
    (¬ ((al ∧ w < 500) ∨ w < 4500) →
      (calculate_skid_parameters w l wd cl al).max_spacing_rule_in = 24) := by
  unfold calculate_skid_parameters
  by_cases h1 : (al : Prop) ∧ w < 500
  · simp only [if_pos h1]
    exact ⟨fun _ => by norm_num, fun hc => absurd (Or.inl h1) hc⟩
  · simp only [if_neg h1]
    by_cases h2 : w < 4500
    · simp only [if_pos h2]
      exact ⟨fun _ => by norm_num, fun hc => absurd (Or.inr h2) hc⟩
    · simp only [if_neg h2]
      have hno : ¬ ((al ∧ w < 500) ∨ w < 4500) := by
        rintro (h | h)
        · exact h1 h
        · exact h2 h
      by_cases h3 : 4500 ≤ w ∧ w ≤ 20000
      · simp only [if_pos h3]
        exact ⟨fun hc => absurd hc hno, fun _ => by norm_num⟩
      · simp only [if_neg h3]
        exact ⟨fun hc => absurd hc hno, fun _ => by norm_num⟩

theorem skid_spacing_pos (w l wd cl : ℚ) (al : Bool) :
    0 < (calculate_skid_parameters w l wd cl al).max_spacing_rule_in := by
  obtain ⟨h30, h24⟩ := skid_spacing w l wd cl al
  by_cases h : (al ∧ w < 500) ∨ w < 4500
  · rw [h30 h]; norm_num
  · rw [h24 h]; norm_num

/-- C3: for every input, with `W` the crate outer width (product width plus
twice the side clearance), the skid solver emits a single centered skid with
zero pitch when `W` is at most the skid width plus the `0.0001` tolerance;
otherwise it emits `max 2 (⌈(W − skid_width)/spacing⌉ + 1)` skids at pitch
`(W − skid_width)/(count − 1)`, where the spacing rule is `30` for the light
and medium weight brackets and `24` otherwise. -/
theorem skid_count_pitch_formula (w l wd cl : ℚ) (al : Bool) :
    (((al ∧ w < 500) ∨ w < 4500) →
      (calculate_skid_parameters w l wd cl al).max_spacing_rule_in = 30) ∧
    (¬ ((al ∧ w < 500) ∨ w < 4500) →
      (calculate_skid_parameters w l wd cl al).max_spacing_rule_in = 24) ∧
    (wd + 2 * cl ≤
        (calculate_skid_parameters w l wd cl al).actual_width_in + 0.0001 →
      (calculate_skid_parameters w l wd cl al).count = 1 ∧
      (calculate_skid_parameters w l wd cl al).pitch_in = 0 ∧
      (calculate_skid_parameters w l wd cl al).first_pos_x_in = 0) ∧
    (¬ (wd + 2 * cl ≤
        (calculate_skid_parameters w l wd cl al).actual_width_in + 0.0001) →
      (calculate_skid_parameters w l wd cl al).count =
        max 2 (Int.ceil ((wd + 2 * cl -
          (calculate_skid_parameters w l wd cl al).actual_width_in) /
          (calculate_skid_parameters w l wd cl al).max_spacing_rule_in) + 1) ∧
      (calculate_skid_parameters w l wd cl al).pitch_in =
        (wd + 2 * cl -
          (calculate_skid_parameters w l wd cl al).actual_width_in) /
          (((calculate_skid_parameters w l wd cl al).count : ℚ) - 1)) := by
  obtain ⟨h30, h24⟩ := skid_spacing w l wd cl al
  have hf := skid_fields w l wd cl al
  have hsp := skid_spacing_pos w l wd cl al
  refine ⟨h30, h24, ?_, ?_⟩
  · intro h
    rw [skidCpf_single _ _ _ h] at hf
    exact ⟨congrArg Prod.fst hf, congrArg (fun t => t.2.1) hf,
      congrArg (fun t => t.2.2) hf⟩
  · intro h
    obtain ⟨hcount, hpitch, _, _⟩ := skidCpf_multi (wd + 2 * cl)
      (calculate_skid_parameters w l wd cl al).actual_width_in
      (calculate_skid_parameters w l wd cl al).max_spacing_rule_in hsp h
    have hc := congrArg Prod.fst hf
    have hp := congrArg (fun t => t.2.1) hf
    dsimp only at hc hp
    rw [hc, hp, hcount]
    exact ⟨rfl, by rw [hpitch, ← hcount, ← hc]⟩

/-- C3 witness: both regimes of the formula hold at concrete inputs — the
light 300-lb crate of width 45 is in the 30-inch-spacing bracket and takes the
multi-skid branch, while a heavy 30000-lb crate of width 5 takes the
single-skid branch of the 24-inch bracket. -/
theorem skid_count_pitch_formula_witness :
    (calculate_skid_parameters 300 100 40 2.5 true).max_spacing_rule_in = 30 ∧
    ((calculate_skid_parameters 300 100 40 2.5 true).count =
      max 2 (Int.ceil ((40 + 2 * 2.5 -
        (calculate_skid_parameters 300 100 40 2.5 true).actual_width_in) /
        (calculate_skid_parameters 300 100 40 2.5 true).max_spacing_rule_in) + 1) ∧
      (calculate_skid_parameters 300 100 40 2.5 true).pitch_in =
        (40 + 2 * 2.5 -
          (calculate_skid_parameters 300 100 40 2.5 true).actual_width_in) /
          (((calculate_skid_parameters 300 100 40 2.5 true).count : ℚ) - 1)) ∧
    (calculate_skid_parameters 30000 20 5 0 false).max_spacing_rule_in = 24 ∧
    ((calculate_skid_parameters 30000 20 5 0 false).count = 1 ∧
      (calculate_skid_parameters 30000 20 5 0 false).pitch_in = 0 ∧
      (calculate_skid_parameters 30000 20 5 0 false).first_pos_x_in = 0) :=
  ⟨(skid_count_pitch_formula 300 100 40 2.5 true).1 (Or.inl ⟨rfl, by norm_num⟩),
   (skid_count_pitch_formula 300 100 40 2.5 true).2.2.2
     (by norm_num [calculate_skid_parameters]),
   (skid_count_pitch_formula 30000 20 5 0 false).2.1
     (by rintro (⟨h, _⟩ | h)
         · simp at h
         · norm_num at h),
   (skid_count_pitch_formula 30000 20 5 0 false).2.2.1
     (by norm_num [calculate_skid_parameters])⟩

/-- C10 (amended): whenever the crate outer width exceeds the skid width by
more than the `0.0001` tolerance (the multi-skid branch), the computed pitch
is strictly positive and never exceeds the selected max-spacing rule. -/
theorem skid_pitch_bounded (w l wd cl : ℚ) (al : Bool)
    (h : ¬ (wd + 2 * cl ≤
      (calculate_skid_parameters w l wd cl al).actual_width_in + 0.0001)) :
    0 < (calculate_skid_parameters w l wd cl al).pitch_in ∧
    (calculate_skid_parameters w l wd cl al).pitch_in ≤
      (calculate_skid_parameters w l wd cl al).max_spacing_rule_in := by
  have hf := skid_fields w l wd cl al
  have hsp := skid_spacing_pos w l wd cl al
  obtain ⟨_, _, hpos, hle⟩ := skidCpf_multi (wd + 2 * cl)
    (calculate_skid_parameters w l wd cl al).actual_width_in
    (calculate_skid_parameters w l wd cl al).max_spacing_rule_in hsp h
  have hp := congrArg (fun t => t.2.1) hf
  dsimp only at hp
  rw [hp]
  exact ⟨hpos, hle⟩

/-- C10 counterexample: a crate outer width of `2.50005` strictly exceeds the
light skid width `2.5`, yet the width falls inside the `0.0001` tolerance
band, so the solver takes the single-skid branch and the pitch is `0`, not
positive as the claim states. -/
theorem skid_pitch_boundary_counterexample :
    (calculate_skid_parameters 300 100 2.50005 0 true).actual_width_in <
      2.50005 + 2 * 0 ∧
    (calculate_skid_parameters 300 100 2.50005 0 true).pitch_in = 0 := by
  norm_num [calculate_skid_parameters, skidCpf]

/-- C10 witness: at the light 300-lb crate of outer width 45 the multi-skid
branch applies and the pitch is positive and within the 30-inch rule. -/
theorem skid_pitch_bounded_witness :
    0 < (calculate_skid_parameters 300 100 40 2.5 true).pitch_in ∧
    (calculate_skid_parameters 300 100 40 2.5 true).pitch_in ≤
      (calculate_skid_parameters 300 100 40 2.5 true).max_spacing_rule_in :=
  skid_pitch_bounded 300 100 40 2.5 true
    (by norm_num [calculate_skid_parameters])

/-- C5 counterexample: at product weight 300, length 100, width 40, side
clearance 2.5 with light skids allowed, the solver emits 3 skids, not the 2
the claim states: the 42.5-inch centerline span needs two 30-inch-max gaps. -/
theorem light_skid_scenario_counterexample :
    (calculate_skid_parameters 300 100 40 2.5 true).count = 3 ∧
    ¬ ((calculate_skid_parameters 300 100 40 2.5 true).count = 2) := by
  norm_num [calculate_skid_parameters, skidCpf, pyCeil, Rat.floor_def']

/-- C5 (amended): the 300-lb scenario selects the light bracket (height 3.5,
width 2.5, 3x4 callout), and emits count 3 with pitch
`(45 − 2.5)/(count − 1) = 21.25`. -/
theorem light_skid_scenario_amended :
    (calculate_skid_parameters 300 100 40 2.5 true).actual_height_in = 3.5 ∧
    (calculate_skid_parameters 300 100 40 2.5 true).actual_width_in = 2.5 ∧
    (calculate_skid_parameters 300 100 40 2.5 true).lumber_callout =
      "3x4 (oriented for 3.5 H)" ∧
    (calculate_skid_parameters 300 100 40 2.5 true).count = 3 ∧
    (calculate_skid_parameters 300 100 40 2.5 true).pitch_in =
      (45 - 2.5) / (((calculate_skid_parameters 300 100 40 2.5 true).count : ℚ) - 1) := by
  refine ⟨?_, ?_, ?_, ?_, ?_⟩ <;>
    norm_num [calculate_skid_parameters, skidCpf, pyCeil, Rat.floor_def']

/-- C2: in both the root panel resolver and the current generator variant,
the end panel length equals the crate overall length minus the front panel
depth minus the back panel depth, exactly, and the front and back depths each
equal sheathing thickness plus cleat thickness. -/
theorem end_panel_sandwich_exact (crate_w crate_l pt ct ph ca fb sh gc : ℚ) :
    (calculate_panel_parameters crate_w crate_l pt ct ph ca fb sh gc).end_calc_length =
      crate_l -
        (calculate_panel_parameters crate_w crate_l pt ct ph ca fb sh gc).front_calc_depth -
        (calculate_panel_parameters crate_w crate_l pt ct ph ca fb sh gc).back_calc_depth ∧
    (calculate_panel_parameters crate_w crate_l pt ct ph ca fb sh gc).front_calc_depth =
      pt + ct ∧
    (calculate_panel_parameters crate_w crate_l pt ct ph ca fb sh gc).back_calc_depth =
      pt + ct ∧
    (calculate_panel_boxes_current crate_w crate_l pt ct fb ph ca sh gc).end_calc_length =
      crate_l -
        (calculate_panel_boxes_current crate_w crate_l pt ct fb ph ca sh gc).front_calc_depth -
        (calculate_panel_boxes_current crate_w crate_l pt ct fb ph ca sh gc).back_calc_depth ∧
    (calculate_panel_boxes_current crate_w crate_l pt ct fb ph ca sh gc).front_calc_depth =
      pt + ct ∧
    (calculate_panel_boxes_current crate_w crate_l pt ct fb ph ca sh gc).back_calc_depth =
      pt + ct :=
  ⟨rfl, rfl, rfl, rfl, rfl, rfl⟩

/-- C4 counterexample: at floorboard thickness 1.5, product height 50,
above-clearance 2, skid height 3.5, ground clearance 1, sheathing 0.25 and
cleat 0.75, the root resolver's front panel height is 59: it equals neither
the claimed base `1.5 + 50 + 2 = 53.5` nor the claimed grade variant
`53.5 + (3.5 − 1) = 56`. -/
theorem front_height_variant_counterexample :
    (calculate_panel_parameters 45 105 0.25 0.75 50 2 1.5 3.5 1).front_calc_height = 59 ∧
    ¬ ((calculate_panel_parameters 45 105 0.25 0.75 50 2 1.5 3.5 1).front_calc_height =
        1.5 + 50 + 2) ∧
    ¬ ((calculate_panel_parameters 45 105 0.25 0.75 50 2 1.5 3.5 1).front_calc_height =
        1.5 + 50 + 2 + (3.5 - 1)) := by
  refine ⟨?_, ?_, ?_⟩ <;> norm_num [calculate_panel_parameters]

/-- C4 (amended): front and back heights are always equal to each other in
both variants; the current generator computes the base formula (floorboard
thickness + product height + above-clearance), while the root resolver adds
skid height, ground clearance and the panel assembly thickness on top of the
base — not the `skid height − ground clearance` term the claim permits. -/
theorem front_back_height_formulas (crate_w crate_l pt ct ph ca fb sh gc : ℚ) :
    (calculate_panel_parameters crate_w crate_l pt ct ph ca fb sh gc).front_calc_height =
      fb + ph + ca + sh + gc + (pt + ct) ∧
    (calculate_panel_parameters crate_w crate_l pt ct ph ca fb sh gc).back_calc_height =
      (calculate_panel_parameters crate_w crate_l pt ct ph ca fb sh gc).front_calc_height ∧
    (calculate_panel_boxes_current crate_w crate_l pt ct fb ph ca sh gc).front_calc_height =
      fb + ph + ca ∧
    (calculate_panel_boxes_current crate_w crate_l pt ct fb ph ca sh gc).back_calc_height =
      (calculate_panel_boxes_current crate_w crate_l pt ct fb ph ca sh gc).front_calc_height := by
  refine ⟨?_, rfl, rfl, rfl⟩
  show ph + ca + fb + sh + gc + (pt + ct) = fb + ph + ca + sh + gc + (pt + ct)
  ring

/-- C1 (amended): let `Y` be the usable span and `r` the residual left by the
greedy fill.  Whenever the residual resolves — as a forced small custom board,
a regular custom board, or an accepted middle gap — the board widths (custom
included) plus the middle gap equal `Y` exactly.  When no resolution branch
fires (in particular a residual above `max_gap + 0.001` but below
`min_custom − 0.001`), the custom width and gap are both zero and the boards
cover only `Y − r`: the coverage invariant fails by exactly the dropped
residual, beyond the 0.001 tolerance whenever `r` exceeds it. -/
theorem floorboard_coverage_amended (cw sl pt ct ft : ℚ) (widths : List ℚ)
    (mg mc : ℚ) (force : Bool) (mf Y r : ℚ)
    (hY : Y = sl - 2 * (pt + ct))
    (hr : r = (greedyLoop (List.insertionSort (fun a b => b ≤ a) widths)
      (fbFuel (sl - 2 * (pt + ct))
        (List.insertionSort (fun a b => b ≤ a) widths))
      (sl - 2 * (pt + ct))).2) :
    ((( force ∧ (mf - 0.001 ≤ r ∧ r < mc + 0.001)) ∨ mc - 0.001 ≤ r ∨
        (0.001 < r ∧ r ≤ mg + 0.001)) →
      ((calculate_floorboard_parameters cw sl pt ct ft widths mg mc force
          mf).floorboards_data.map FloorboardData.width).sum +
        (calculate_floorboard_parameters cw sl pt ct ft widths mg mc force
          mf).actual_middle_gap = Y) ∧
    (¬ ((( force ∧ (mf - 0.001 ≤ r ∧ r < mc + 0.001)) ∨ mc - 0.001 ≤ r ∨
        (0.001 < r ∧ r ≤ mg + 0.001))) →
      (calculate_floorboard_parameters cw sl pt ct ft widths mg mc force
          mf).center_custom_board_width = 0 ∧
      (calculate_floorboard_parameters cw sl pt ct ft widths mg mc force
          mf).actual_middle_gap = 0 ∧
      ((calculate_floorboard_parameters cw sl pt ct ft widths mg mc force
          mf).floorboards_data.map FloorboardData.width).sum = Y - r) := by
  subst hY hr
  have hsum := greedyLoop_sum (List.insertionSort (fun a b => b ≤ a) widths)
    (fbFuel (sl - 2 * (pt + ct)) (List.insertionSort (fun a b => b ≤ a) widths))
    (sl - 2 * (pt + ct))
  have hcov := coverage_of_resolution force mf mc mg (sl - 2 * (pt + ct))
    ((greedyLoop (List.insertionSort (fun a b => b ≤ a) widths)
      (fbFuel (sl - 2 * (pt + ct)) (List.insertionSort (fun a b => b ≤ a) widths))
      (sl - 2 * (pt + ct))).2)
    ((greedyLoop (List.insertionSort (fun a b => b ≤ a) widths)
      (fbFuel (sl - 2 * (pt + ct)) (List.insertionSort (fun a b => b ≤ a) widths))
      (sl - 2 * (pt + ct))).1) hsum
  unfold calculate_floorboard_parameters
  dsimp only
  rw [layoutBoards_widths]
  exact hcov

set_option maxRecDepth 8000 in
/-- C1 counterexample (the spec's own §8 scenario): widths
`{5.5, 7.25, 9.25, 11.25}`, usable span `58`, min custom `2.5`, max gap
`0.25`, force flag off.  The greedy fill leaves residual `1.75`, which is
neither coverable nor an acceptable gap; the plan totals `56.25` and misses
the span by `1.75`, far beyond the `0.001` tolerance. -/
theorem floorboard_coverage_counterexample :
    ((calculate_floorboard_parameters 45 60 0.25 0.75 1.5
        [5.5, 7.25, 9.25, 11.25] 0.25 2.5 false 0.25).floorboards_data.map
        FloorboardData.width).sum +
      (calculate_floorboard_parameters 45 60 0.25 0.75 1.5
        [5.5, 7.25, 9.25, 11.25] 0.25 2.5 false 0.25).center_custom_board_width +
      (calculate_floorboard_parameters 45 60 0.25 0.75 1.5
        [5.5, 7.25, 9.25, 11.25] 0.25 2.5 false 0.25).actual_middle_gap = 56.25 ∧
    (56.25 : ℚ) + 0.001 < 60 - 2 * (0.25 + 0.75) := by
  constructor
  · norm_num [calculate_floorboard_parameters, resolveResidual, recomputeGap,
      greedyLoop, bestFit, fbFuel, minPos, layoutBoards, pyCeil, Rat.floor_def',
      List.insertionSort, List.orderedInsert, min_def, List.find?]
  · norm_num

set_option maxRecDepth 8000 in
/-- C1 witness: with min custom width lowered to `1.5` the same scenario
resolves the residual `1.75` into a custom board, and the amended coverage
equation holds exactly at `58`. -/
theorem floorboard_coverage_amended_witness :
    ((calculate_floorboard_parameters 45 60 0.25 0.75 1.5
        [5.5, 7.25, 9.25, 11.25] 0.25 1.5 false 0.25).floorboards_data.map
        FloorboardData.width).sum +
      (calculate_floorboard_parameters 45 60 0.25 0.75 1.5
        [5.5, 7.25, 9.25, 11.25] 0.25 1.5 false 0.25).actual_middle_gap =
      60 - 2 * (0.25 + 0.75) :=
  (floorboard_coverage_amended 45 60 0.25 0.75 1.5 [5.5, 7.25, 9.25, 11.25]
    0.25 1.5 false 0.25 (60 - 2 * (0.25 + 0.75)) 1.75 rfl
    (by norm_num [greedyLoop, bestFit, fbFuel, minPos, min_def, List.find?,
      List.insertionSort, List.orderedInsert])).1
    (Or.inr (Or.inl (by norm_num)))

/-- C8: in the packing loop of the floorboard solver, every appended board is
positive, comes from the available width set, fits within the remaining span
plus `0.001` at the moment it is appended, and is the largest such fitting
width (the first fit of the descending scan); and the loop stops exactly when
no positive width fits the remaining span. -/
theorem greedy_largest_fit (sl pt ct : ℚ) (widths : List ℚ)
    (Y : ℚ) (sorted ps : List ℚ) (r : ℚ)
    (_hY : Y = sl - 2 * (pt + ct))
    (hsorted : sorted = List.insertionSort (fun a b => b ≤ a) widths)
    (hps : ps = (greedyLoop sorted (fbFuel Y sorted) Y).1)
    (hr : r = (greedyLoop sorted (fbFuel Y sorted) Y).2) :
    (∀ i : ℕ, i < ps.length →
      0 < ps.getD i 0 ∧
      ps.getD i 0 ∈ widths ∧
      ps.getD i 0 ≤ (Y - (ps.take i).sum) + 0.001 ∧
      ∀ w ∈ widths, w ≤ (Y - (ps.take i).sum) + 0.001 → w ≤ ps.getD i 0) ∧
    (∀ w ∈ widths, 0 < w → ¬ (w ≤ r + 0.001)) := by
  have hperm : List.Perm sorted widths := by
    rw [hsorted]; exact List.perm_insertionSort _ _
  have hsort : List.Sorted (fun a b => b ≤ a) sorted := by
    rw [hsorted]; exact List.sorted_insertionSort _ _
  constructor
  · intro i hi
    rw [hps] at hi
    obtain ⟨hget, hpos⟩ := greedyLoop_get sorted (fbFuel Y sorted) Y i hi
    rw [← hps] at hget hpos
    obtain ⟨hmem, hfit⟩ := bestFit_fits (hget ▸ hpos)
    refine ⟨hpos, ?_, ?_, ?_⟩
    · rw [hget]; exact hperm.mem_iff.mp hmem
    · rw [hget]; exact hfit
    · intro w hw hwfit
      rw [hget]
      exact fits_le_bestFit hsort (hperm.mem_iff.mpr hw) hwfit
  · intro w hw hwpos
    have hexit : bestFit sorted (greedyLoop sorted (fbFuel Y sorted) Y).2 ≤ 0 :=
      greedy_exit (fun v hv hvpos => minPos_le hv hvpos) (fbFuel Y sorted) Y
        (fbFuel_adequate Y sorted)
    rw [hr]
    exact no_fit_of_bestFit_nonpos hsort hexit (hperm.mem_iff.mpr hw) hwpos

set_option maxRecDepth 8000 in
/-- C8 witness: in the §8 scenario the first appended board is `11.25` — the
largest width fitting the span `58` — and after the fill no width fits the
residual `1.75`. -/
theorem greedy_largest_fit_witness :
    (0 : ℚ) <
      ((greedyLoop [11.25, 9.25, 7.25, 5.5]
        (fbFuel 58 [11.25, 9.25, 7.25, 5.5]) 58).1.getD 0 0) ∧
    ¬ ((5.5 : ℚ) ≤
      (greedyLoop [11.25, 9.25, 7.25, 5.5]
        (fbFuel 58 [11.25, 9.25, 7.25, 5.5]) 58).2 + 0.001) := by
  have hsorted : ([11.25, 9.25, 7.25, 5.5] : List ℚ) =
      List.insertionSort (fun a b => b ≤ a) [5.5, 7.25, 9.25, 11.25] := by
    norm_num [List.insertionSort, List.orderedInsert]
  have h := greedy_largest_fit 60 0.25 0.75 [5.5, 7.25, 9.25, 11.25] 58
    [11.25, 9.25, 7.25, 5.5]
    (greedyLoop [11.25, 9.25, 7.25, 5.5]
      (fbFuel 58 [11.25, 9.25, 7.25, 5.5]) 58).1
    (greedyLoop [11.25, 9.25, 7.25, 5.5]
      (fbFuel 58 [11.25, 9.25, 7.25, 5.5]) 58).2
    (by norm_num) hsorted rfl rfl
  have hlen : (greedyLoop [11.25, 9.25, 7.25, 5.5]
      (fbFuel 58 [11.25, 9.25, 7.25, 5.5]) 58).1.length = 5 := by
    norm_num [greedyLoop, bestFit, fbFuel, minPos, min_def, List.find?]
  refine ⟨(h.1 0 (by rw [hlen]; norm_num)).1, h.2 5.5 (by norm_num) (by norm_num)⟩

theorem ite_some_none_eq_none {c : Prop} [Decidable c] {s : String}
    {y : Option String} :
    (if c then some s else y) = none ↔ ¬ c ∧ y = none := by
  by_cases h : c <;> simp [h]

theorem validate_none_constraints (i : Inputs) (h : validate_inputs i = none) :
    ¬ i.product_weight_lbs < 0 ∧ ¬ i.product_length_in ≤ 0 ∧
    ¬ i.product_width_in ≤ 0 ∧ ¬ i.clearance_each_side_in < 0 ∧
    ¬ i.panel_thickness_in ≤ 0 ∧ ¬ i.product_actual_height_in ≤ 0 ∧
    ¬ i.clearance_above_product_in < 0 ∧ ¬ i.ground_clearance_in < 0 ∧
    ¬ i.floorboard_actual_thickness_in ≤ 0 ∧
    ¬ i.selected_std_lumber_widths = [] ∧
    ¬ i.max_allowable_middle_gap_in < 0 ∧
    ¬ i.min_custom_lumber_width_in ≤ 0 := by
  unfold validate_inputs at h
  simp only [ite_some_none_eq_none, and_true] at h
  obtain ⟨n1, n2, n3, n4, n5, _, n7, n8, n9, n10, n11, n12, n13, _⟩ := h
  exact ⟨n1, n2, n3, n4, n5, n7, n8, n9, n10, n11, n12, n13⟩

/-- C7: any input violating one of the listed validation constraints makes
the orchestrator return the tagged, field-specific validation message and no
derivation record (no solver output exists); any input passing validation
makes it run all three solvers and return their results. -/
theorem validation_gates_solvers (i : Inputs) :
    ((i.product_weight_lbs < 0 ∨ i.product_length_in ≤ 0 ∨
      i.product_width_in ≤ 0 ∨ i.product_actual_height_in ≤ 0 ∨
      i.panel_thickness_in ≤ 0 ∨ i.floorboard_actual_thickness_in ≤ 0 ∨
      i.clearance_each_side_in < 0 ∨ i.clearance_above_product_in < 0 ∨
      i.ground_clearance_in < 0 ∨ i.max_allowable_middle_gap_in < 0 ∨
      i.selected_std_lumber_widths = [] ∨
      i.min_custom_lumber_width_in ≤ 0) →
      ∃ m, validate_inputs i = some m ∧ run_derivation i = Except.error m) ∧
    (validate_inputs i = none →
      run_derivation i = Except.ok
        { skid_params := calculate_skid_parameters i.product_weight_lbs
            i.product_length_in i.product_width_in i.clearance_each_side_in
            i.allow_3x4_skids_bool
          floorboard_params := calculate_floorboard_parameters
            (i.product_width_in + 2 * i.clearance_each_side_in)
            (calculate_skid_parameters i.product_weight_lbs
              i.product_length_in i.product_width_in i.clearance_each_side_in
              i.allow_3x4_skids_bool).model_length_in
            i.panel_thickness_in i.cleat_thickness_in
            i.floorboard_actual_thickness_in i.selected_std_lumber_widths
            i.max_allowable_middle_gap_in i.min_custom_lumber_width_in
            i.force_small_custom_board_bool MIN_FORCEABLE_CUSTOM_BOARD_WIDTH
          panel_params := calculate_panel_parameters
            (i.product_width_in + 2 * i.clearance_each_side_in)
            (calculate_skid_parameters i.product_weight_lbs
              i.product_length_in i.product_width_in i.clearance_each_side_in
              i.allow_3x4_skids_bool).model_length_in
            i.panel_thickness_in i.cleat_thickness_in
            i.product_actual_height_in i.clearance_above_product_in
            i.floorboard_actual_thickness_in
            (calculate_skid_parameters i.product_weight_lbs
              i.product_length_in i.product_width_in i.clearance_each_side_in
              i.allow_3x4_skids_bool).actual_height_in
            i.ground_clearance_in
          crate_overall_width_od_in :=
            i.product_width_in + 2 * i.clearance_each_side_in
          crate_overall_length_od_in :=
            (calculate_skid_parameters i.product_weight_lbs
              i.product_length_in i.product_width_in i.clearance_each_side_in
              i.allow_3x4_skids_bool).model_length_in }) := by
  constructor
  · intro hviol
    cases hval : validate_inputs i with
    | some m =>
      refine ⟨m, rfl, ?_⟩
      unfold run_derivation
      rw [hval]
    | none =>
      obtain ⟨n1, n2, n3, n4, n5, n6, n7, n8, n9, n10, n11, n12⟩ :=
        validate_none_constraints i hval
      rcases hviol with h | h | h | h | h | h | h | h | h | h | h | h
      · exact absurd h n1
      · exact absurd h n2
      · exact absurd h n3
      · exact absurd h n6
      · exact absurd h n5
      · exact absurd h n9
      · exact absurd h n4
      · exact absurd h n7
      · exact absurd h n8
      · exact absurd h n11
      · exact absurd h n10
      · exact absurd h n12
  · intro hval
    unfold run_derivation
    rw [hval]

/-- C7 witness: a negative product weight yields the tagged error with no
record, and a fully valid request yields the three solver outputs. -/
theorem validation_gates_solvers_witness :
    (∃ m, validate_inputs
        ⟨-1, 100, 40, 2.5, true, 0.25, 0.75, 50, 2, 1, 1.5, [5.5], 0.25, 2.5,
          false⟩ = some m ∧
      run_derivation
        ⟨-1, 100, 40, 2.5, true, 0.25, 0.75, 50, 2, 1, 1.5, [5.5], 0.25, 2.5,
          false⟩ = Except.error m) ∧
    run_derivation
        ⟨300, 100, 40, 2.5, true, 0.25, 0.75, 50, 2, 1, 1.5, [5.5], 0.25, 2.5,
          false⟩ =
      Except.ok
        { skid_params := calculate_skid_parameters 300 100 40 2.5 true
          floorboard_params := calculate_floorboard_parameters
            (40 + 2 * 2.5)
            (calculate_skid_parameters 300 100 40 2.5 true).model_length_in
            0.25 0.75 1.5 [5.5] 0.25 2.5 false MIN_FORCEABLE_CUSTOM_BOARD_WIDTH
          panel_params := calculate_panel_parameters (40 + 2 * 2.5)
            (calculate_skid_parameters 300 100 40 2.5 true).model_length_in
            0.25 0.75 50 2 1.5
            (calculate_skid_parameters 300 100 40 2.5 true).actual_height_in 1
          crate_overall_width_od_in := 40 + 2 * 2.5
          crate_overall_length_od_in :=
            (calculate_skid_parameters 300 100 40 2.5 true).model_length_in } :=
  ⟨(validation_gates_solvers
      ⟨-1, 100, 40, 2.5, true, 0.25, 0.75, 50, 2, 1, 1.5, [5.5], 0.25, 2.5,
        false⟩).1 (Or.inl (by norm_num)),
   (validation_gates_solvers
      ⟨300, 100, 40, 2.5, true, 0.25, 0.75, 50, 2, 1, 1.5, [5.5], 0.25, 2.5,
        false⟩).2
     (by norm_num [validate_inputs, MIN_FORCEABLE_CUSTOM_BOARD_WIDTH])⟩

theorem content_drop_two (i : Inputs) (r : DerivationRecord) (ts ts' : String) :
    (generate_nx_expressions_content i r ts).drop 2 =
      (generate_nx_expressions_content i r ts').drop 2 := rfl

theorem content_take_one (i : Inputs) (r : DerivationRecord) (ts ts' : String) :
    (generate_nx_expressions_content i r ts).take 1 =
      (generate_nx_expressions_content i r ts').take 1 := rfl

theorem content_timestamp_inj (i : Inputs) (r : DerivationRecord)
    (ts ts' : String)
    (h : generate_nx_expressions_content i r ts =
      generate_nx_expressions_content i r ts') :
    "// Generated: " ++ ts ++ "\n" = "// Generated: " ++ ts' ++ "\n" := by
  have h1 := congrArg (fun l => l.getD 1 (ExpLine.text "")) h
  simpa [generate_nx_expressions_content, List.getD_cons_succ,
    List.getD_cons_zero] using h1

/-- C6 (amended): the derivation is a pure function of the inputs and the
wall-clock reading: two runs agree byte-for-byte on the first header line and
on everything after the second line.  Only the `// Generated:` header line
carries the clock, so re-running on identical inputs is byte-identical
exactly when the clock reading is identical. -/
theorem orchestrator_deterministic_modulo_timestamp (i : Inputs)
    (ts ts' : String) :
    (generate_crate_expressions i ts).map (List.drop 2) =
      (generate_crate_expressions i ts').map (List.drop 2) ∧
    (generate_crate_expressions i ts).map (List.take 1) =
      (generate_crate_expressions i ts').map (List.take 1) := by
  unfold generate_crate_expressions
  cases h : run_derivation i with
  | error m => simp [Except.map]
  | ok r =>
    simp only [Except.map]
    exact ⟨by rw [content_drop_two i r ts ts'],
      by rw [content_take_one i r ts ts']⟩

/-- C6 counterexample: on one fixed valid input, two runs whose clock
readings differ by one second produce different expressions content — the
engine interpolates `datetime.now()` into the generated file, so re-running
is not byte-identical as the claim states. -/
theorem orchestrator_timestamp_counterexample :
    generate_crate_expressions
        ⟨300, 100, 40, 2.5, true, 0.25, 0.75, 50, 2, 1, 1.5, [5.5], 0.25, 2.5,
          false⟩ "2025-01-01 12:00:00" ≠
      generate_crate_expressions
        ⟨300, 100, 40, 2.5, true, 0.25, 0.75, 50, 2, 1, 1.5, [5.5], 0.25, 2.5,
          false⟩ "2025-01-01 12:00:01" := by
  intro heq
  have hval : validate_inputs
      ⟨300, 100, 40, 2.5, true, 0.25, 0.75, 50, 2, 1, 1.5, [5.5], 0.25, 2.5,
        false⟩ = none := by
    norm_num [validate_inputs, MIN_FORCEABLE_CUSTOM_BOARD_WIDTH]
  unfold generate_crate_expressions run_derivation at heq
  rw [hval] at heq
  simp only [Except.map] at heq
  have hts := content_timestamp_inj _ _ _ _ (Except.ok.inj heq)
  simp at hts


theorem clamp_eq_max (x : ℚ) : (if x < 0 then (0 : ℚ) else x) = max 0 x := by
  rcases lt_or_le x 0 with h | h
  · rw [if_pos h, max_eq_left h.le]
  · rw [if_neg (not_lt.mpr h), max_eq_right h]

/-- C9 (amended): every secondary edge cleat length equals the panel's
other-axis dimension minus twice the cleat member width, clamped to zero —
in the front, back, end and top panel calculators alike.  The clamp is
silent: the calculators return only the dimension record, and the current
generator reports plain success on every input that passes validation,
clamping or not. -/
theorem secondary_cleat_clamp_silent (w h fw fh tw tl t ct mw : ℚ) :
    (calculate_front_panel_components w h t ct mw).vertical_cleats.length =
      max 0 (h - 2 * mw) ∧
    (calculate_back_panel_components w h t ct mw).vertical_cleats.length =
      max 0 (h - 2 * mw) ∧
    (calculate_end_panel_components fw fh t ct mw).horizontal_cleats.length =
      max 0 (fw - 2 * mw) ∧
    (calculate_top_panel_components tw tl t ct mw).secondary_cleats.length =
      max 0 (tw - 2 * mw) ∧
    (∀ ci : CurrentInputs, validate_inputs_current ci = none →
      ∃ rec, generate_crate_expressions_logic ci = Except.ok rec) := by
  refine ⟨?_, ?_, ?_, ?_, ?_⟩
  · show (if h - 2 * mw < 0 then (0 : ℚ) else h - 2 * mw) = max 0 (h - 2 * mw)
    exact clamp_eq_max _
  · show (if h - 2 * mw < 0 then (0 : ℚ) else h - 2 * mw) = max 0 (h - 2 * mw)
    exact clamp_eq_max _
  · show (if fw - 2 * mw < 0 then (0 : ℚ) else fw - 2 * mw) =
      max 0 (fw - 2 * mw)
    exact clamp_eq_max _
  · show (if tw - 2 * mw < 0 then (0 : ℚ) else tw - 2 * mw) =
      max 0 (tw - 2 * mw)
    exact clamp_eq_max _
  · intro ci hv
    unfold generate_crate_expressions_logic
    rw [hv]
    exact ⟨_, rfl⟩

/-- C9 counterexample: a 5-inch-long crate with 3.5-inch cleat members makes
the end panel's secondary cleat length negative before clamping
(`3 − 7 = −4`); the current generator still returns plain success with the
length clamped to `0` — the record it returns carries no warning of the
infeasible geometry, so the condition is silently swallowed, contrary to the
claim. -/
theorem secondary_cleat_warning_counterexample :
    (generate_crate_expressions_logic
        ⟨300, 5, 40, 0, true, 0.25, 0.75, 3.5, 50, 2, 1, 1.5, [5.5], 0.25,
          2.5, false⟩).map
        (fun rec => rec.end_panel_components.horizontal_cleats.length) =
      Except.ok 0 ∧
    (5 : ℚ) - (0.25 + 0.75) - (0.25 + 0.75) - 2 * 3.5 < 0 := by
  have hval : validate_inputs_current
      ⟨300, 5, 40, 0, true, 0.25, 0.75, 3.5, 50, 2, 1, 1.5, [5.5], 0.25,
        2.5, false⟩ = none := by
    norm_num [validate_inputs_current, MIN_FORCEABLE_CUSTOM_BOARD_WIDTH]
  constructor
  · unfold generate_crate_expressions_logic
    rw [hval]
    simp only [Except.map]
    norm_num [calculate_panel_boxes_current, calculate_end_panel_components,
      calculate_skid_parameters]
  · norm_num

/-- C9 witness: at the spec's 48-by-60 front panel with 3.5-inch members the
clamped formula gives `53`, and a fully valid request yields a success
record from the current generator. -/
theorem secondary_cleat_clamp_silent_witness :
    (calculate_front_panel_components 48 60 0.75 1.5 3.5).vertical_cleats.length =
      max 0 (60 - 2 * 3.5) ∧
    ∃ rec, generate_crate_expressions_logic
        ⟨300, 100, 40, 2.5, true, 0.25, 0.75, 3.5, 50, 2, 1, 1.5, [5.5], 0.25,
          2.5, false⟩ = Except.ok rec :=
  ⟨(secondary_cleat_clamp_silent 48 60 0 0 0 0 0.75 1.5 3.5).1,
   (secondary_cleat_clamp_silent 0 0 0 0 0 0 0 0 0).2.2.2.2
     ⟨300, 100, 40, 2.5, true, 0.25, 0.75, 3.5, 50, 2, 1, 1.5, [5.5], 0.25,
       2.5, false⟩
     (by norm_num [validate_inputs_current, MIN_FORCEABLE_CUSTOM_BOARD_WIDTH])⟩

end Crate
